import Mathlib

/-!
Verification of the coat-recommendation backend (main.py, schemas.py).

The Python code works on IEEE doubles; the embedding models numeric values
as exact rationals, which is the idealized real-number semantics the spec
describes. Strings are Lean strings. Fallible endpoint code is embedded as
functions into Except, with the HTTP exceptions made explicit.
-/

/-- Embedding of the Python builtin round(x, 1): round to one decimal
place, ties going to the even multiple (banker rounding). -/
def pyRound1 (q : ℚ) : ℚ :=
  let n : ℤ := ⌊10 * q⌋
  let frac : ℚ := 10 * q - (n : ℚ)
  (if frac > 1/2 then ((n + 1 : ℤ) : ℚ)
   else if frac < 1/2 then (n : ℚ)
   else if Even n then (n : ℚ) else ((n + 1 : ℤ) : ℚ)) / 10

/-- The adjusted (feels-like) temperature of main.py line 49:
adjusted = temp_c - (0.1 * wind_kmh / 5.0). -/
def adjustedTemp (temp_c wind_kmh : ℚ) : ℚ :=
  temp_c - (1/10 * wind_kmh / 5)

/-- Output record of coat_recommendation (main.py lines 81-87). -/
structure Recommendation where
  context : String
  coat : String
  note : String
  precip : String
  adjusted_temp_c : ℚ
deriving Repr, DecidableEq

/-- Embedding of coat_recommendation (main.py lines 45-87). The Python
if/elif chain assigns coat and note together per branch; here the same
chain of conditions is written once for each of the two fields. -/
def coat_recommendation (temp_c wind_kmh precipitation_mm : ℚ) (is_day : Bool) :
    Recommendation :=
  let adjusted := adjustedTemp temp_c wind_kmh
  let precip_note :=
    if precipitation_mm ≥ 1 then "Rainy"
    else if precipitation_mm > 1/10 then "Drizzly"
    else "Dry"
  let context := if is_day then "Day (outside rug)" else "Night (inside rug)"
  let coat :=
    if adjusted < -5 then "Thermal coat + booties"
    else if adjusted < 5 then "Insulated coat"
    else if adjusted < 12 then "Light coat"
    else if adjusted < 20 then "No coat, optional light vest"
    else "No coat"
  let note0 :=
    if adjusted < -5 then "Very cold. Limit outdoor time."
    else if adjusted < 5 then "Chilly. Keep sessions short."
    else if adjusted < 12 then "Cool but manageable."
    else if adjusted < 20 then "Comfortable temps."
    else "Warm. Provide shade and water."
  let note := if is_day then note0 else note0 ++ " Use a cozy indoor rug/blanket for naps."
  { context := context
    coat := coat
    note := note
    precip := precip_note
    adjusted_temp_c := pyRound1 adjusted }

/-- C1: at (temperature_c=10, wind_kmh=25, precipitation_mm=0) the day
recommendation is adjusted 9.5, Light coat, Cool but manageable., Dry,
Day (outside rug); the night recommendation keeps coat, precip and
adjusted, switches the context and appends the indoor-rug suffix. -/
theorem C1_scenario_10_25_0 :
    coat_recommendation 10 25 0 true =
      { context := "Day (outside rug)"
        coat := "Light coat"
        note := "Cool but manageable."
        precip := "Dry"
        adjusted_temp_c := 19/2 } ∧
    coat_recommendation 10 25 0 false =
      { context := "Night (inside rug)"
        coat := "Light coat"
        note := "Cool but manageable." ++ " Use a cozy indoor rug/blanket for naps."
        precip := "Dry"
        adjusted_temp_c := 19/2 } := by
  constructor <;>
  · simp only [coat_recommendation, adjustedTemp, pyRound1]
    norm_num

/-- The five temperature bands of the coat table, as boolean tests on the
adjusted value, in the order the code checks them. -/
def bandTests (a : ℚ) : List Bool :=
  [decide (a < -5), decide (-5 ≤ a ∧ a < 5), decide (5 ≤ a ∧ a < 12),
   decide (12 ≤ a ∧ a < 20), decide (20 ≤ a)]

lemma bandTests_count (a : ℚ) : (bandTests a).count true = 1 := by
  unfold bandTests
  rcases lt_or_le a (-5) with h1 | h1 <;>
  rcases lt_or_le a 5 with h2 | h2 <;>
  rcases lt_or_le a 12 with h3 | h3 <;>
  rcases lt_or_le a 20 with h4 | h4 <;>
  simp_all [List.count_cons] <;> linarith

/-- C2: the coat bands are half-open with first-match-wins: adjusted
exactly -5 gives Insulated coat, exactly 5 gives Light coat, exactly 12
gives the light-vest band, 20 or above gives No coat; and exactly one of
the five bands holds for every adjusted value. -/
theorem C2_band_boundaries (t w p : ℚ) (d : Bool) :
    (adjustedTemp t w = -5 → (coat_recommendation t w p d).coat = "Insulated coat") ∧
    (adjustedTemp t w = 5 → (coat_recommendation t w p d).coat = "Light coat") ∧
    (adjustedTemp t w = 12 →
      (coat_recommendation t w p d).coat = "No coat, optional light vest") ∧
    (20 ≤ adjustedTemp t w → (coat_recommendation t w p d).coat = "No coat") ∧
    (bandTests (adjustedTemp t w)).count true = 1 := by
  refine ⟨fun h => ?_, fun h => ?_, fun h => ?_, fun h => ?_, bandTests_count _⟩ <;>
  · simp only [coat_recommendation]
    split_ifs <;> first | rfl | linarith

/-- Closed instance of C2_band_boundaries: at temperature -5 and no wind
the adjusted value is exactly -5 and the coat is the Insulated coat; at
temperature 20 the No-coat band applies. -/
theorem C2_band_boundaries_witness :
    (coat_recommendation (-5) 0 0 true).coat = "Insulated coat" ∧
    (coat_recommendation 20 0 0 true).coat = "No coat" :=
  ⟨(C2_band_boundaries (-5) 0 0 true).1 (by norm_num [adjustedTemp]),
   (C2_band_boundaries 20 0 0 true).2.2.2.1 (by norm_num [adjustedTemp])⟩

/-- C3: precipitation is classified into exactly one band with
precedence: at least 1 mm is Rainy, strictly between 0.1 and 1 is
Drizzly, and at most 0.1 mm (the low boundary included) is Dry. -/
theorem C3_precip_bands (t w p : ℚ) (d : Bool) :
    (1 ≤ p → (coat_recommendation t w p d).precip = "Rainy") ∧
    (1/10 < p → p < 1 → (coat_recommendation t w p d).precip = "Drizzly") ∧
    (p ≤ 1/10 → (coat_recommendation t w p d).precip = "Dry") := by
  refine ⟨fun h => ?_, fun h h2 => ?_, fun h => ?_⟩ <;>
  · simp only [coat_recommendation]
    split_ifs <;> first | rfl | linarith

/-- Closed instance of C3_precip_bands: 1 mm is Rainy, 0.5 mm is
Drizzly, and exactly 0.1 mm is Dry. -/
theorem C3_precip_bands_witness :
    (coat_recommendation 10 0 1 true).precip = "Rainy" ∧
    (coat_recommendation 10 0 (1/2) true).precip = "Drizzly" ∧
    (coat_recommendation 10 0 (1/10) true).precip = "Dry" :=
  ⟨(C3_precip_bands 10 0 1 true).1 (by norm_num),
   (C3_precip_bands 10 0 (1/2) true).2.1 (by norm_num) (by norm_num),
   (C3_precip_bands 10 0 (1/10) true).2.2 (by norm_num)⟩

/-- C4: the adjusted temperature is temp_c - (0.1 * wind_kmh / 5) with no
clamping, the output field is its one-decimal rounding, and for a fixed
temperature it is monotonically non-increasing in the wind speed. -/
theorem C4_adjusted_formula (t w p : ℚ) (d : Bool) :
    adjustedTemp t w = t - (1/10 * w / 5) ∧
    (coat_recommendation t w p d).adjusted_temp_c = pyRound1 (adjustedTemp t w) ∧
    ∀ w1 w2 : ℚ, 0 ≤ w1 → w1 ≤ w2 → adjustedTemp t w2 ≤ adjustedTemp t w1 := by
  refine ⟨rfl, rfl, fun w1 w2 h1 h2 => ?_⟩
  simp only [adjustedTemp]
  linarith

/-- Closed instance of C4_adjusted_formula: at temperature 10, wind 25 is
at least as chilling as wind 0. -/
theorem C4_adjusted_formula_witness : adjustedTemp 10 25 ≤ adjustedTemp 10 0 :=
  (C4_adjusted_formula 10 0 0 true).2.2 0 25 (by norm_num) (by norm_num)

/-- C5: with is_day false the note is the selected band note with the
fixed indoor-rug suffix concatenated at the end; with is_day true it is
exactly the band note. -/
theorem C5_night_note_suffix (t w p : ℚ) :
    (coat_recommendation t w p false).note =
      (coat_recommendation t w p true).note ++
        " Use a cozy indoor rug/blanket for naps." ∧
    (coat_recommendation t w p true).note ∈
      ["Very cold. Limit outdoor time.", "Chilly. Keep sessions short.",
       "Cool but manageable.", "Comfortable temps.",
       "Warm. Provide shade and water."] := by
  constructor <;>
  · simp only [coat_recommendation]
    split_ifs <;> first | contradiction | simp

/-- C10: the precipitation input influences only the precip field:
context, coat, note and adjusted_temp_c agree for any two precipitation
values with the other inputs fixed. -/
theorem C10_precip_noninterference (t w p1 p2 : ℚ) (d : Bool) :
    (coat_recommendation t w p1 d).context = (coat_recommendation t w p2 d).context ∧
    (coat_recommendation t w p1 d).coat = (coat_recommendation t w p2 d).coat ∧
    (coat_recommendation t w p1 d).note = (coat_recommendation t w p2 d).note ∧
    (coat_recommendation t w p1 d).adjusted_temp_c =
      (coat_recommendation t w p2 d).adjusted_temp_c :=
  ⟨rfl, rfl, rfl, rfl⟩

/-! Endpoint glue: store keys, documents, weather payloads. -/

/-- A bson store key, kept as its canonical lowercase 24-digit hex
rendering. -/
structure ObjectId where
  hex : String
deriving Repr, DecidableEq

def isHexDigitChar (c : Char) : Bool :=
  c.isDigit || ('a' ≤ c && c ≤ 'f') || ('A' ≤ c && c ≤ 'F')

/-- Modelled from the bson library used by main.py: the ObjectId
constructor accepts a string argument exactly when it is a 24-character
hexadecimal string, and raises otherwise; the value is the 12-byte key,
represented here by the lowercase hex rendering. -/
def ObjectId.ofString (s : String) : Option ObjectId :=
  if s.length = 24 && s.data.all isHexDigitChar then
    some ⟨⟨s.data.map Char.toLower⟩⟩
  else none

def ObjectId.str (o : ObjectId) : String := o.hex

/-- An HTTPException raised by a route (status code and detail). -/
structure HTTPException where
  status_code : ℕ
  detail : String
deriving Repr, DecidableEq

/-- Embedding of to_object_id (main.py lines 24-28). -/
def to_object_id (id_str : String) : Except HTTPException ObjectId :=
  match ObjectId.ofString id_str with
  | some oid => .ok oid
  | none => .error ⟨400, "Invalid id format"⟩

/-- A stored cat document (schemas.py Cat plus the store key). -/
structure CatDoc where
  _id : ObjectId
  name : Option String
  latitude : ℚ
  longitude : ℚ
  city : Option String
  notes : Option String
deriving Repr, DecidableEq

/-- Embedding of delete_cat (main.py lines 125-132): the store delete_one
removes the first document whose key matches; a zero deleted count is a
404. The result carries the store after the call and the response
status string. -/
def delete_cat (db : Option (List CatDoc)) (cat_id : String) :
    Except HTTPException (List CatDoc × String) :=
  match db with
  | none => .error ⟨500, "Database not available"⟩
  | some store =>
    match to_object_id cat_id with
    | .error e => .error e
    | .ok oid =>
      if store.any (fun doc => decide (doc._id = oid)) then
        .ok (store.eraseP (fun doc => decide (doc._id = oid)), "deleted")
      else .error ⟨404, "Cat not found"⟩

/-- C9: an id string that does not parse as a store key gives a 400
validation error, a well-formed id matching no stored record gives a
404, and a matching id deletes the record and answers deleted. -/
theorem C9_delete_cat (store : List CatDoc) (cat_id : String) :
    (ObjectId.ofString cat_id = none →
      delete_cat (some store) cat_id = .error ⟨400, "Invalid id format"⟩) ∧
    (∀ oid, ObjectId.ofString cat_id = some oid →
      (∀ doc ∈ store, doc._id ≠ oid) →
      delete_cat (some store) cat_id = .error ⟨404, "Cat not found"⟩) ∧
    (∀ oid, ObjectId.ofString cat_id = some oid →
      (∃ doc ∈ store, doc._id = oid) →
      delete_cat (some store) cat_id =
        .ok (store.eraseP (fun doc => decide (doc._id = oid)), "deleted")) := by
  refine ⟨fun h => ?_, fun oid h habs => ?_, fun oid h hmem => ?_⟩ <;>
    simp only [delete_cat, to_object_id, h]
  · have : ¬ store.any (fun doc => decide (doc._id = oid)) = true := by
      simp only [List.any_eq_true, decide_eq_true_eq, not_exists]
      intro doc hd
      exact habs doc hd.1 hd.2
    simp [this]
  · have : store.any (fun doc => decide (doc._id = oid)) = true := by
      simp only [List.any_eq_true, decide_eq_true_eq]
      exact hmem
    simp [this]

/-- Closed instance of C9_delete_cat: a malformed id gives 400 on an
empty store; a well-formed absent id gives 404; a present id deletes. -/
theorem C9_delete_cat_witness :
    delete_cat (some []) "zzz" = .error ⟨400, "Invalid id format"⟩ ∧
    delete_cat (some []) "0123456789abcdef01234567" = .error ⟨404, "Cat not found"⟩ ∧
    delete_cat (some [⟨⟨"0123456789abcdef01234567"⟩, none, 0, 0, none, none⟩])
        "0123456789abcdef01234567" = .ok ([], "deleted") :=
  ⟨(C9_delete_cat [] "zzz").1 (by decide),
   (C9_delete_cat [] "0123456789abcdef01234567").2.1 ⟨"0123456789abcdef01234567"⟩
     (by decide) (by simp),
   (C9_delete_cat [⟨⟨"0123456789abcdef01234567"⟩, none, 0, 0, none, none⟩]
       "0123456789abcdef01234567").2.2 ⟨"0123456789abcdef01234567"⟩
     (by decide) ⟨_, List.mem_singleton.mpr rfl, rfl⟩⟩

/-- The current object of the provider response; every field may be
absent. The day flag arrives as the 0/1 integer of the provider. -/
structure CurrentConditions where
  temperature_2m : Option ℚ
  apparent_temperature : Option ℚ
  wind_speed_10m : Option ℚ
  precipitation : Option ℚ
  is_day : Option ℤ
deriving Repr, DecidableEq

/-- The weather section of the endpoint payloads. -/
@[ext]
structure WeatherOut where
  temperature_c : ℚ
  apparent_c : ℚ
  wind_kmh : ℚ
  precipitation_mm : ℚ
  is_day : Bool
deriving Repr, DecidableEq

/-- The cat section of the endpoint payloads. -/
structure CatInfo where
  id : String
  name : Option String
  city : Option String
  notes : Option String
deriving Repr, DecidableEq

/-- The day/night recommendation pair of the endpoint payloads. -/
structure RecPair where
  day : Recommendation
  night : Recommendation
deriving Repr, DecidableEq

/-- The full payload of the single-cat recommendation endpoint. -/
structure RecommendationPayload where
  cat : CatInfo
  weather : WeatherOut
  recommendations : RecPair
deriving Repr, DecidableEq

/-- Embedding of the payload assembly of get_recommendation
(main.py lines 143-176): defaulted extraction of the current conditions
and the recommendation pair computed by calling coat_recommendation with
is_day True and with is_day False on the same reading. -/
def recommendation_payload (doc : CatDoc) (current : CurrentConditions) :
    RecommendationPayload :=
  let temp_c := current.temperature_2m.getD 0
  let wind_kmh := current.wind_speed_10m.getD 0
  let precipitation_mm := current.precipitation.getD 0
  let is_day := (current.is_day.getD 1) != 0
  { cat := { id := doc._id.str, name := doc.name, city := doc.city, notes := doc.notes }
    weather :=
      { temperature_c := temp_c
        apparent_c := current.apparent_temperature.getD temp_c
        wind_kmh := wind_kmh
        precipitation_mm := precipitation_mm
        is_day := is_day }
    recommendations :=
      { day := coat_recommendation temp_c wind_kmh precipitation_mm true
        night := coat_recommendation temp_c wind_kmh precipitation_mm false } }

/-- One entry of the dashboard response: the full record on success, the
partial record (identifying fields and an error string) on failure. -/
inductive DashboardItem where
  | ok (cat : CatInfo) (weather : WeatherOut) (recommendations : RecPair)
  | err (id : String) (name : Option String) (city : Option String) (error : String)
deriving Repr, DecidableEq

def DashboardItem.recs : DashboardItem → Option RecPair
  | .ok _ _ r => some r
  | .err _ _ _ _ => none

/-- Embedding of one iteration of the dashboard loop (main.py lines
184-219); the body duplicates the extraction of get_recommendation. A
successful fetch yields the full record; a raised exception yields the
partial record with the message truncated to 120 characters. -/
def dashboard_item (doc : CatDoc) (res : Except String CurrentConditions) :
    DashboardItem :=
  match res with
  | .ok current =>
    let temp_c := current.temperature_2m.getD 0
    let wind_kmh := current.wind_speed_10m.getD 0
    let precipitation_mm := current.precipitation.getD 0
    let is_day := (current.is_day.getD 1) != 0
    .ok { id := doc._id.str, name := doc.name, city := doc.city, notes := doc.notes }
      { temperature_c := temp_c
        apparent_c := current.apparent_temperature.getD temp_c
        wind_kmh := wind_kmh
        precipitation_mm := precipitation_mm
        is_day := is_day }
      { day := coat_recommendation temp_c wind_kmh precipitation_mm true
        night := coat_recommendation temp_c wind_kmh precipitation_mm false }
  | .error e => .err doc._id.str doc.name doc.city (e.take 120)

/-- Embedding of the dashboard loop (main.py lines 179-220): one item per
stored cat, in store order; fetch is the weather call, which either
returns the current conditions or raises with a message. -/
def dashboard (cats : List CatDoc)
    (fetch : ℚ → ℚ → Except String CurrentConditions) : List DashboardItem :=
  cats.map (fun doc => dashboard_item doc (fetch doc.latitude doc.longitude))

/-- C6: in both endpoints the recommendation pair is obtained by calling
coat_recommendation twice, with is_day True and False, on the same
reading; the actual day flag of the reading never influences the pair. -/
theorem C6_pair_ignores_day_flag (doc : CatDoc) (c : CurrentConditions)
    (x : Option ℤ) :
    (recommendation_payload doc { c with is_day := x }).recommendations =
      (recommendation_payload doc c).recommendations ∧
    (recommendation_payload doc c).recommendations =
      { day := coat_recommendation (c.temperature_2m.getD 0) (c.wind_speed_10m.getD 0)
          (c.precipitation.getD 0) true
        night := coat_recommendation (c.temperature_2m.getD 0) (c.wind_speed_10m.getD 0)
          (c.precipitation.getD 0) false } ∧
    (dashboard_item doc (.ok { c with is_day := x })).recs =
      (dashboard_item doc (.ok c)).recs ∧
    (dashboard_item doc (.ok c)).recs =
      some { day := coat_recommendation (c.temperature_2m.getD 0)
                      (c.wind_speed_10m.getD 0) (c.precipitation.getD 0) true
             night := coat_recommendation (c.temperature_2m.getD 0)
                      (c.wind_speed_10m.getD 0) (c.precipitation.getD 0) false } :=
  ⟨rfl, rfl, rfl, rfl⟩

/-- Sample stored document used in concrete instances. -/
def sampleDoc : CatDoc :=
  ⟨⟨"0123456789abcdef01234567"⟩, some "Misha", 1, 2, some "Oslo", none⟩

/-- C7 counterexample: with the temperature present (7) and the apparent
temperature missing, the payload substitutes the temperature value 7 for
the apparent temperature, not the claimed default 0. -/
theorem C7_counterexample :
    (recommendation_payload sampleDoc
        { temperature_2m := some 7, apparent_temperature := none,
          wind_speed_10m := none, precipitation := none,
          is_day := none }).weather.apparent_c = 7 ∧
    (7 : ℚ) ≠ 0 :=
  ⟨rfl, by norm_num⟩

/-- C7 amended: a missing temperature, wind speed or precipitation is
substituted with 0 and a missing day flag with true; a missing apparent
temperature is substituted with the already-defaulted temperature value,
hence with 0 exactly when the temperature is missing too; extraction
never fails. -/
theorem C7_missing_field_defaults (doc : CatDoc) (c : CurrentConditions) :
    (c.temperature_2m = none →
      (recommendation_payload doc c).weather.temperature_c = 0) ∧
    (c.wind_speed_10m = none →
      (recommendation_payload doc c).weather.wind_kmh = 0) ∧
    (c.precipitation = none →
      (recommendation_payload doc c).weather.precipitation_mm = 0) ∧
    (c.is_day = none → (recommendation_payload doc c).weather.is_day = true) ∧
    (c.apparent_temperature = none →
      (recommendation_payload doc c).weather.apparent_c =
        (recommendation_payload doc c).weather.temperature_c) ∧
    (c.temperature_2m = none → c.apparent_temperature = none →
      (recommendation_payload doc c).weather.apparent_c = 0) := by
  refine ⟨fun h1 => ?_, fun h2 => ?_, fun h3 => ?_, fun h4 => ?_,
    fun h5 => ?_, fun h1 h5 => ?_⟩ <;>
  simp [recommendation_payload, *]

/-- Closed instance of C7_missing_field_defaults: with every field of the
current object missing, the payload weather is 0 for temperature,
apparent temperature, wind and precipitation, and true for the day
flag. -/
theorem C7_missing_field_defaults_witness :
    (recommendation_payload sampleDoc ⟨none, none, none, none, none⟩).weather =
      { temperature_c := 0, apparent_c := 0, wind_kmh := 0,
        precipitation_mm := 0, is_day := true } := by
  have h := C7_missing_field_defaults sampleDoc ⟨none, none, none, none, none⟩
  exact WeatherOut.ext (h.1 rfl) (h.2.2.2.2.2 rfl rfl) (h.2.1 rfl)
    (h.2.2.1 rfl) (h.2.2.2.1 rfl)

/-- C8: the dashboard response has exactly one item per stored cat, in
store iteration order; an item whose fetch raises is the partial record
of the identifying fields plus the message truncated to 120 characters,
and the remaining items are unaffected. -/
theorem C8_dashboard_isolation (cats : List CatDoc)
    (fetch : ℚ → ℚ → Except String CurrentConditions) :
    (dashboard cats fetch).length = cats.length ∧
    (∀ i (h1 : i < cats.length) (h2 : i < (dashboard cats fetch).length),
      (dashboard cats fetch).get ⟨i, h2⟩ =
        dashboard_item (cats.get ⟨i, h1⟩)
          (fetch (cats.get ⟨i, h1⟩).latitude (cats.get ⟨i, h1⟩).longitude)) ∧
    (∀ doc e, dashboard_item doc (.error e) =
      .err doc._id.str doc.name doc.city (e.take 120)) ∧
    (∀ e : String, (e.take 120).length ≤ 120) := by
  refine ⟨by simp [dashboard], fun i h1 h2 => ?_, fun doc e => rfl, fun e => ?_⟩
  · simp [dashboard, List.get_eq_getElem]
  · rw [String.take_eq]
    exact List.length_take_le 120 e.data

/-- The two stored cats of the closed dashboard instance. -/
def dA : CatDoc := ⟨⟨"aaaaaaaaaaaaaaaaaaaaaaaa"⟩, some "Ash", 1, 2, some "Oslo", none⟩

def dB : CatDoc := ⟨⟨"bbbbbbbbbbbbbbbbbbbbbbbb"⟩, some "Bea", 2, 3, none, none⟩

/-- A fetch that raises for the first cat and succeeds for the second. -/
def fetchW : ℚ → ℚ → Except String CurrentConditions := fun la _ =>
  if la = 1 then .error "boom" else .ok ⟨some 7, none, some 3, some 0, some 1⟩

/-- Closed instance of C8_dashboard_isolation on a two-cat store whose
fetch raises for the first cat only. -/
theorem C8_dashboard_isolation_witness :
    (dashboard [dA, dB] fetchW).length = ([dA, dB] : List CatDoc).length ∧
    (dashboard [dA, dB] fetchW).get ⟨0, by simp [dashboard]⟩ =
      dashboard_item (([dA, dB] : List CatDoc).get ⟨0, by simp⟩)
        (fetchW (([dA, dB] : List CatDoc).get ⟨0, by simp⟩).latitude
          (([dA, dB] : List CatDoc).get ⟨0, by simp⟩).longitude) ∧
    dashboard_item dA (.error "boom") =
      .err dA._id.str dA.name dA.city ("boom".take 120) ∧
    ("boom".take 120).length ≤ 120 :=
  ⟨(C8_dashboard_isolation [dA, dB] fetchW).1,
   (C8_dashboard_isolation [dA, dB] fetchW).2.1 0 (by simp) (by simp [dashboard]),
   (C8_dashboard_isolation [dA, dB] fetchW).2.2.1 dA "boom",
   (C8_dashboard_isolation [dA, dB] fetchW).2.2.2 "boom"⟩
